import Mathlib

/-!
Verification of `modbus_clock_server.py`, a Modbus-TCP server exposing the
system clock as six holding registers.

Modelling conventions:
* A byte stream is a `List Nat`; genuine wire bytes are `< 256`.  Where Python
  reads a byte directly (`struct.unpack`, `pdu[0]`) the model applies `% 256`,
  which is the identity on genuine bytes.
* Python `int` is `Int` where negatives can occur (`read_clock_registers` and
  `recv_exact` take Python ints), otherwise `Nat`.
* A raised exception that the connection loop turns into "terminate the
  connection, send nothing" is `none`; a sent response frame is `some bytes`.
* The live system clock is an explicit `Clock` parameter: one sample of
  `datetime.now()` per call of `read_clock_registers`.
-/

/-- One sample of the system clock (`datetime.now()`): the six fields the
server exposes. -/
structure Clock where
  day : Nat
  month : Nat
  year : Nat
  hour : Nat
  minute : Nat
  second : Nat
deriving DecidableEq

/-- The register bank `(now.day, now.month, now.year, now.hour, now.minute,
now.second)` built inside `read_clock_registers`. -/
def registersOf (c : Clock) : List Nat :=
  [c.day, c.month, c.year, c.hour, c.minute, c.second]

/-- Python slice index clamping for a sequence of length `L`: a negative index
counts from the end (clamped below at 0), a nonnegative one is clamped above
at `L`. -/
def pyIndex (L : Nat) (i : Int) : Nat :=
  if i < 0 then L - (-i).toNat else min i.toNat L

/-- Python slice `xs[a:b]` (step 1). -/
def pySlice {α : Type} (xs : List α) (a b : Int) : List α :=
  (xs.take (pyIndex xs.length b)).drop (pyIndex xs.length a)

/-- Source `read_clock_registers(start, count)`: samples the clock, raises
`IndexError` (modelled `none`) when `start < 0 or start + count > 6`, and
otherwise returns the Python slice `registers[start:start+count]`. -/
def read_clock_registers (c : Clock) (start count : Int) : Option (List Nat) :=
  let registers := registersOf c
  let e := start + count
  if start < 0 ∨ e > (registers.length : Int) then none
  else some (pySlice registers start e)

/-- Big-endian 16-bit serialization, `struct.pack(">H", n)`. -/
def u16be (n : Nat) : List Nat :=
  [n / 256 % 256, n % 256]

/-- Big-endian 16-bit deserialization of two wire bytes,
`struct.unpack(">H", ...)`. -/
def u16of (hi lo : Nat) : Nat :=
  hi % 256 * 256 + lo % 256

/-- Modbus exception code Illegal Function. -/
def ILLEGAL_FUNCTION : Nat := 0x01

/-- Modbus exception code Illegal Data Address. -/
def ILLEGAL_DATA_ADDRESS : Nat := 0x02

/-- Modbus exception code Illegal Data Value. -/
def ILLEGAL_DATA_VALUE : Nat := 0x03

/-- Source `build_exception_response`: PDU is `function | 0x80` then the
exception code; MBAP length field is `1 + len(pdu)`. -/
def build_exception_response (transaction_id protocol_id unit_id function ex_code : Nat) :
    List Nat :=
  let pdu := [(function ||| 0x80) % 256, ex_code % 256]
  let length := 1 + pdu.length
  let mbap := u16be transaction_id ++ u16be protocol_id ++ u16be length ++ [unit_id % 256]
  mbap ++ pdu

/-- Source `build_fc3_response`: PDU is `0x03`, the byte count
`2 * len(values)`, then each value masked to 16 bits and packed big-endian;
MBAP length field is `1 + len(pdu)`. -/
def build_fc3_response (transaction_id protocol_id unit_id : Nat) (values : List Nat) :
    List Nat :=
  let byte_count := values.length * 2
  let regs := (values.map (fun v => u16be (v % 65536))).flatten
  let pdu := [0x03, byte_count % 256] ++ regs
  let length := 1 + pdu.length
  let mbap := u16be transaction_id ++ u16be protocol_id ++ u16be length ++ [unit_id % 256]
  mbap ++ pdu

/-- Source `parse_mbap_header`: `struct.unpack(">HHHB", hdr)` on the 7 header
bytes, giving `(transaction_id, protocol_id, length, unit_id)`. -/
def parse_mbap_header (hdr : List Nat) : Nat × Nat × Nat × Nat :=
  (u16of (hdr.getD 0 0) (hdr.getD 1 0),
   u16of (hdr.getD 2 0) (hdr.getD 3 0),
   u16of (hdr.getD 4 0) (hdr.getD 5 0),
   hdr.getD 6 0 % 256)

/-- One iteration of the `handle_client` loop after the header and body have
been read: the empty-PDU check, the function-code dispatch, validation in
source order, and the response built for this request.  `none` means a raised
`ConnectionError` (connection terminated, nothing sent). -/
def processFrame (c : Clock) (transaction_id protocol_id unit_id : Nat) (pdu : List Nat) :
    Option (List Nat) :=
  if pdu.isEmpty then none
  else
    let function := pdu.headD 0 % 256
    if function = 0x03 then
      if pdu.length ≠ 5 then
        some (build_exception_response transaction_id protocol_id unit_id function
          ILLEGAL_DATA_VALUE)
      else
        let start_addr := u16of (pdu.getD 1 0) (pdu.getD 2 0)
        let qty := u16of (pdu.getD 3 0) (pdu.getD 4 0)
        if qty < 1 ∨ 125 < qty then
          some (build_exception_response transaction_id protocol_id unit_id function
            ILLEGAL_DATA_VALUE)
        else
          match read_clock_registers c (start_addr : Int) (qty : Int) with
          | none => some (build_exception_response transaction_id protocol_id unit_id function
              ILLEGAL_DATA_ADDRESS)
          | some vals => some (build_fc3_response transaction_id protocol_id unit_id vals)
    else
      some (build_exception_response transaction_id protocol_id unit_id function
        ILLEGAL_FUNCTION)

/-- Source `recv_exact(sock, n)` over a deterministic stream: with `n <= 0`
the receive loop never runs and the empty byte string is returned; otherwise
exactly `n` bytes are consumed, or `ConnectionError` (`none`) is raised when
the peer closes first. -/
def recv_exact (stream : List Nat) (n : Int) : Option (List Nat × List Nat) :=
  if n ≤ 0 then some ([], stream)
  else if n.toNat ≤ stream.length then some (stream.take n.toNat, stream.drop n.toNat)
  else none

/-- One full iteration of `handle_client`: read 7 header bytes, parse the
MBAP header, read `length - 1` body bytes, dispatch.  Returns the response
frame and the unconsumed stream, or `none` when the connection is
terminated without a response. -/
def handleOnce (c : Clock) (stream : List Nat) : Option (List Nat × List Nat) :=
  match recv_exact stream 7 with
  | none => none
  | some (hdr, rest) =>
    match parse_mbap_header hdr with
    | (transaction_id, protocol_id, length, unit_id) =>
      match recv_exact rest ((length : Int) - 1) with
      | none => none
      | some (pdu, rest2) =>
        match processFrame c transaction_id protocol_id unit_id pdu with
        | none => none
        | some resp => some (resp, rest2)

/-- The fixed mock time source of the spec scenarios:
Day=15, Month=6, Year=2025, Hour=13, Minute=45, Second=30. -/
def testClock : Clock :=
  { day := 15, month := 6, year := 2025, hour := 13, minute := 45, second := 30 }

/-- The response PDU determined by the request PDU and the clock alone; the
MBAP header fields play no part in selecting it. -/
def pduResponse (c : Clock) (pdu : List Nat) : Option (List Nat) :=
  if pdu.isEmpty then none
  else
    let function := pdu.headD 0 % 256
    if function = 0x03 then
      if pdu.length ≠ 5 then
        some [(function ||| 0x80) % 256, ILLEGAL_DATA_VALUE % 256]
      else
        let start_addr := u16of (pdu.getD 1 0) (pdu.getD 2 0)
        let qty := u16of (pdu.getD 3 0) (pdu.getD 4 0)
        if qty < 1 ∨ 125 < qty then
          some [(function ||| 0x80) % 256, ILLEGAL_DATA_VALUE % 256]
        else
          match read_clock_registers c (start_addr : Int) (qty : Int) with
          | none => some [(function ||| 0x80) % 256, ILLEGAL_DATA_ADDRESS % 256]
          | some vals =>
              some ([0x03, vals.length * 2 % 256] ++ (vals.map (fun v => u16be (v % 65536))).flatten)
    else
      some [(function ||| 0x80) % 256, ILLEGAL_FUNCTION % 256]

/-- The MBAP framing shared by both response builders: echoed header fields,
length field `1 + len(pdu)`, then the PDU. -/
def mbapFrame (transaction_id protocol_id unit_id : Nat) (pdu : List Nat) : List Nat :=
  u16be transaction_id ++ u16be protocol_id ++ u16be (1 + pdu.length) ++ [unit_id % 256] ++ pdu

lemma processFrame_eq_map (c : Clock) (tid pid uid : Nat) (pdu : List Nat) :
    processFrame c tid pid uid pdu = (pduResponse c pdu).map (mbapFrame tid pid uid) := by
  unfold processFrame pduResponse
  dsimp only
  repeat' split
  all_goals simp [build_exception_response, build_fc3_response, mbapFrame]

lemma registersOf_length (c : Clock) : (registersOf c).length = 6 := rfl

lemma read_clock_registers_none_iff (c : Clock) (start count : Int) :
    read_clock_registers c start count = none ↔ start < 0 ∨ 6 < start + count := by
  unfold read_clock_registers
  dsimp only
  split <;> simp_all [registersOf_length]

lemma read_clock_registers_nat (c : Clock) (s q : Nat) (h : s + q ≤ 6) :
    read_clock_registers c (s : Int) (q : Int) = some (((registersOf c).drop s).take q) := by
  have hcond : ¬((s : Int) < 0 ∨ ((s : Int) + (q : Int)) > ((registersOf c).length : Int)) := by
    simp only [registersOf_length]
    push_cast
    omega
  unfold read_clock_registers
  rw [if_neg hcond]
  congr 1
  unfold pySlice pyIndex
  have h1 : ¬((s : Int) + (q : Int) < 0) := by omega
  have h2 : ¬((s : Int) < 0) := by omega
  rw [if_neg h1, if_neg h2]
  simp only [registersOf_length, Int.toNat_natCast]
  have hsq : ((s : Int) + (q : Int)).toNat = s + q := by omega
  rw [hsq, List.drop_take]
  have hmin1 : min (s + q) 6 = s + q := by omega
  have hmin2 : min s 6 = s := by omega
  rw [hmin1, hmin2, Nat.add_sub_cancel_left]

lemma read_clock_registers_nat_length (c : Clock) (s q : Nat) (h : s + q ≤ 6) :
    (((registersOf c).drop s).take q).length = q := by
  simp [registersOf_length]
  omega

lemma flatten_map_u16be_length (l : List Nat) :
    ((l.map (fun v => u16be (v % 65536))).flatten).length = 2 * l.length := by
  induction l with
  | nil => rfl
  | cons a t ih =>
      have hu : (u16be (a % 65536)).length = 2 := rfl
      simp only [List.map_cons, List.flatten_cons, List.length_append, List.length_cons, ih, hu]
      omega

/-- C8: with the mock time source fixed to Day=15, Month=6, Year=2025,
Hour=13, Minute=45, Second=30, the request frame
`00 01 00 00 00 06 01 03 00 00 00 06` produces exactly the response frame
`00 01 00 00 00 0F 01 03 0C 00 0F 00 06 07 E9 00 0D 00 2D 00 1E`
(length field 15, byte count 12, values 15, 6, 2025, 13, 45, 30). -/
theorem c8_concrete_scenario :
    handleOnce testClock
        [0x00, 0x01, 0x00, 0x00, 0x00, 0x06, 0x01, 0x03, 0x00, 0x00, 0x00, 0x06] =
      some ([0x00, 0x01, 0x00, 0x00, 0x00, 0x0F, 0x01, 0x03, 0x0C, 0x00, 0x0F, 0x00, 0x06,
             0x07, 0xE9, 0x00, 0x0D, 0x00, 0x2D, 0x00, 0x1E], []) := by
  decide

/-- C6 counterexample: `read_clock_registers(0, -1)` does not fail (neither
`start < 0` nor `start + count > 6` holds) yet it returns five values, the
Python slice `registers[0:-1]`, not `count = -1` values. -/
theorem c6_counterexample :
    read_clock_registers testClock 0 (-1) = some [15, 6, 2025, 13, 45] ∧
      ¬((0 : Int) < 0 ∨ (0 : Int) + (-1) > 6) ∧
      (([15, 6, 2025, 13, 45] : List Nat).length : Int) ≠ -1 :=
  ⟨by decide, by decide, by decide⟩

/-- C6 (amended): `read_clock_registers(start, count)` fails exactly when
`start < 0` or `start + count > 6`; when it does not fail and `count >= 0`,
it returns exactly `count` values, the elements of the bank
`[day, month, year, hour, minute, second]` at indices `start` through
`start + count - 1`. -/
theorem c6_read_contract_amended (c : Clock) (start count : Int) :
    (read_clock_registers c start count = none ↔ start < 0 ∨ 6 < start + count) ∧
    (0 ≤ count → ∀ vals, read_clock_registers c start count = some vals →
      (vals.length : Int) = count ∧
        vals = ((registersOf c).drop start.toNat).take count.toNat) := by
  refine ⟨read_clock_registers_none_iff c start count, ?_⟩
  intro hc vals hv
  have hcond : ¬(start < 0 ∨ 6 < start + count) := by
    intro hor
    rw [(read_clock_registers_none_iff c start count).mpr hor] at hv
    cases hv
  push_neg at hcond
  obtain ⟨hs, hsum⟩ := hcond
  obtain ⟨s, rfl⟩ := Int.eq_ofNat_of_zero_le hs
  obtain ⟨q, rfl⟩ := Int.eq_ofNat_of_zero_le hc
  have hle : s + q ≤ 6 := by exact_mod_cast hsum
  rw [read_clock_registers_nat c s q hle] at hv
  injection hv with hv
  subst hv
  refine ⟨?_, by simp⟩
  rw [read_clock_registers_nat_length c s q hle]

/-- Witness for the amended C6 at `start = 1`, `count = 2`. -/
theorem c6_read_contract_witness :
    (0 : Int) ≤ 2 ∧ read_clock_registers testClock 1 2 = some [6, 2025] ∧
      (([6, 2025] : List Nat).length : Int) = 2 ∧
      ([6, 2025] : List Nat) =
        ((registersOf testClock).drop (1 : Int).toNat).take (2 : Int).toNat :=
  ⟨by decide, by decide,
    (c6_read_contract_amended testClock 1 2).2 (by decide) [6, 2025] (by decide)⟩

/-- C5: every non-empty PDU whose function code differs from 0x03 is answered
with an exception response whose PDU is exactly the two bytes
`functionCode ||| 0x80` and 0x01 (Illegal Function). -/
theorem c5_illegal_function (c : Clock) (tid pid uid : Nat) (pdu : List Nat)
    (hne : pdu ≠ []) (hb : pdu.headD 0 < 256) (hfc : pdu.headD 0 ≠ 0x03) :
    processFrame c tid pid uid pdu =
      some (u16be tid ++ u16be pid ++ u16be 3 ++ [uid % 256] ++
        [pdu.headD 0 ||| 0x80, 0x01]) := by
  have hmod : pdu.headD 0 % 256 = pdu.headD 0 := Nat.mod_eq_of_lt hb
  have hor : pdu.headD 0 ||| 0x80 < 256 :=
    Nat.or_lt_two_pow (n := 8) hb (by norm_num)
  unfold processFrame
  rw [if_neg (by simpa using hne)]
  dsimp only
  rw [hmod, if_neg hfc]
  unfold build_exception_response ILLEGAL_FUNCTION
  have hor' : pdu.head?.getD 0 ||| 0x80 < 256 := by
    rw [← List.headD_eq_head?_getD]; exact hor
  simp [Nat.mod_eq_of_lt hor']

/-- Witness for C5: function code 0x04 with a stray payload byte. -/
theorem c5_illegal_function_witness :
    processFrame testClock 7 0 1 [0x04, 0xAA] =
      some (u16be 7 ++ u16be 0 ++ u16be 3 ++ [1 % 256] ++ [0x04 ||| 0x80, 0x01]) :=
  c5_illegal_function testClock 7 0 1 [0x04, 0xAA] (by decide) (by decide) (by decide)

/-- C7: an inbound frame whose MBAP length field is at most 1 leaves an empty
PDU; the connection handler terminates the connection and sends no response
rather than answering with a protocol exception. -/
theorem c7_empty_pdu_terminates (c : Clock) (b0 b1 b2 b3 b4 b5 b6 : Nat)
    (rest : List Nat) (hlen : u16of b4 b5 ≤ 1) :
    handleOnce c (b0 :: b1 :: b2 :: b3 :: b4 :: b5 :: b6 :: rest) = none := by
  have h7 : recv_exact (b0 :: b1 :: b2 :: b3 :: b4 :: b5 :: b6 :: rest) 7 =
      some ([b0, b1, b2, b3, b4, b5, b6], rest) := by
    unfold recv_exact
    rw [if_neg (by norm_num), if_pos (by simp)]
    simp
  have hbody : recv_exact rest ((u16of b4 b5 : Int) - 1) = some ([], rest) := by
    unfold recv_exact
    rw [if_pos (by omega)]
  have hparse : parse_mbap_header [b0, b1, b2, b3, b4, b5, b6] =
      (u16of b0 b1, u16of b2 b3, u16of b4 b5, b6 % 256) := rfl
  unfold handleOnce
  rw [h7]
  dsimp only
  rw [hparse]
  dsimp only
  rw [hbody]
  rfl

/-- Witness for C7: a frame whose length field is 1. -/
theorem c7_empty_pdu_witness : handleOnce testClock [0, 0, 0, 0, 0, 1, 1] = none :=
  c7_empty_pdu_terminates testClock 0 0 0 0 0 1 1 [] (by decide)

/-- C2: for a function-code-0x03 PDU the validity checks apply in source
order.  A wrong PDU length yields IllegalDataValue (0x03) regardless of the
other fields; with length 5, an out-of-range quantity yields IllegalDataValue
regardless of the address; and with length 5 and quantity in range, an
out-of-range address (`start < 0` or `start + quantity > 6`) yields
IllegalDataAddress (0x02). -/
theorem c2_validation_order (c : Clock) (tid pid uid : Nat) (pdu : List Nat)
    (hfc : pdu.headD 0 = 0x03) :
    (pdu.length ≠ 5 →
      processFrame c tid pid uid pdu =
        some (build_exception_response tid pid uid 0x03 ILLEGAL_DATA_VALUE)) ∧
    (pdu.length = 5 →
      (u16of (pdu.getD 3 0) (pdu.getD 4 0) < 1 ∨ 125 < u16of (pdu.getD 3 0) (pdu.getD 4 0)) →
      processFrame c tid pid uid pdu =
        some (build_exception_response tid pid uid 0x03 ILLEGAL_DATA_VALUE)) ∧
    (pdu.length = 5 →
      1 ≤ u16of (pdu.getD 3 0) (pdu.getD 4 0) →
      u16of (pdu.getD 3 0) (pdu.getD 4 0) ≤ 125 →
      ((u16of (pdu.getD 1 0) (pdu.getD 2 0) : Int) < 0 ∨
        6 < u16of (pdu.getD 1 0) (pdu.getD 2 0) + u16of (pdu.getD 3 0) (pdu.getD 4 0)) →
      processFrame c tid pid uid pdu =
        some (build_exception_response tid pid uid 0x03 ILLEGAL_DATA_ADDRESS)) := by
  have hne : pdu ≠ [] := by
    intro h
    rw [h] at hfc
    cases hfc
  have hmod : pdu.headD 0 % 256 = 0x03 := by rw [hfc]
  refine ⟨?_, ?_, ?_⟩
  · intro hl
    unfold processFrame
    rw [if_neg (by simpa using hne)]
    dsimp only
    rw [hmod, if_pos rfl, if_pos hl]
  · intro hl5 hq
    unfold processFrame
    rw [if_neg (by simpa using hne)]
    dsimp only
    rw [hmod, if_pos rfl, if_neg (by simp [hl5]), if_pos hq]
  · intro hl5 hq1 hq2 haddr
    have hsum : 6 < u16of (pdu.getD 1 0) (pdu.getD 2 0) + u16of (pdu.getD 3 0) (pdu.getD 4 0) := by
      rcases haddr with hneg | hgt <;> omega
    have hread : read_clock_registers c (u16of (pdu.getD 1 0) (pdu.getD 2 0) : Int)
        (u16of (pdu.getD 3 0) (pdu.getD 4 0) : Int) = none := by
      apply (read_clock_registers_none_iff _ _ _).mpr
      right
      exact_mod_cast hsum
    unfold processFrame
    rw [if_neg (by simpa using hne)]
    dsimp only
    rw [hmod, if_pos rfl, if_neg (by simp [hl5]), if_neg (by omega), hread]

/-- Witness for C2: a function-code-0x03 PDU of length 3 draws the
IllegalDataValue exception of the length check. -/
theorem c2_validation_order_witness :
    processFrame testClock 0 0 0 [0x03, 0, 0] =
      some (build_exception_response 0 0 0 0x03 ILLEGAL_DATA_VALUE) :=
  (c2_validation_order testClock 0 0 0 [0x03, 0, 0] (by decide)).1 (by decide)

/-- C1: a function-code-0x03 request with PDU length exactly 5, quantity
between 1 and 125, and start + quantity at most 6 receives a normal response
whose PDU is 0x03, the byte count `2 * quantity`, then exactly the registers
`read_clock_registers(start, quantity)` returned, in order, each masked to 16
bits and serialized big-endian. -/
theorem c1_fc3_normal_response (c : Clock) (tid pid uid : Nat) (pdu : List Nat)
    (hfc : pdu.headD 0 = 0x03) (hlen : pdu.length = 5)
    (hq1 : 1 ≤ u16of (pdu.getD 3 0) (pdu.getD 4 0))
    (hq2 : u16of (pdu.getD 3 0) (pdu.getD 4 0) ≤ 125)
    (hr : u16of (pdu.getD 1 0) (pdu.getD 2 0) + u16of (pdu.getD 3 0) (pdu.getD 4 0) ≤ 6) :
    ∃ vals,
      read_clock_registers c (u16of (pdu.getD 1 0) (pdu.getD 2 0) : Int)
          (u16of (pdu.getD 3 0) (pdu.getD 4 0) : Int) = some vals ∧
      vals.length = u16of (pdu.getD 3 0) (pdu.getD 4 0) ∧
      processFrame c tid pid uid pdu =
        some (u16be tid ++ u16be pid ++ u16be (3 + 2 * vals.length) ++ [uid % 256] ++
          ([0x03, 2 * vals.length] ++ (vals.map (fun v => u16be (v % 65536))).flatten)) := by
  have hne : pdu ≠ [] := by
    intro h
    rw [h] at hfc
    cases hfc
  have hmod : pdu.headD 0 % 256 = 0x03 := by rw [hfc]
  refine ⟨((registersOf c).drop (u16of (pdu.getD 1 0) (pdu.getD 2 0))).take
      (u16of (pdu.getD 3 0) (pdu.getD 4 0)),
    read_clock_registers_nat c _ _ hr, read_clock_registers_nat_length c _ _ hr, ?_⟩
  unfold processFrame
  rw [if_neg (by simpa using hne)]
  dsimp only
  rw [hmod, if_pos rfl, if_neg (by simp [hlen]), if_neg (by omega),
    read_clock_registers_nat c _ _ hr]
  unfold build_fc3_response
  dsimp only
  congr 1
  set vals := ((registersOf c).drop (u16of (pdu.getD 1 0) (pdu.getD 2 0))).take
      (u16of (pdu.getD 3 0) (pdu.getD 4 0)) with hvals
  have hvlen : vals.length = u16of (pdu.getD 3 0) (pdu.getD 4 0) :=
    read_clock_registers_nat_length c _ _ hr
  have hbc : vals.length * 2 % 256 = 2 * vals.length := by omega
  have hflat : ((vals.map (fun v => u16be (v % 65536))).flatten).length = 2 * vals.length :=
    flatten_map_u16be_length vals
  rw [hbc]
  have hlenf : 1 + ([0x03, 2 * vals.length] ++
      (vals.map (fun v => u16be (v % 65536))).flatten).length = 3 + 2 * vals.length := by
    simp [hflat]
    omega
  rw [hlenf]

/-- Witness for C1: start = 1, quantity = 2 against the mock clock. -/
theorem c1_fc3_normal_response_witness :
    ∃ vals,
      read_clock_registers testClock (u16of 0 1 : Int) (u16of 0 2 : Int) = some vals ∧
      vals.length = u16of 0 2 ∧
      processFrame testClock 0 0 0 [0x03, 0, 1, 0, 2] =
        some (u16be 0 ++ u16be 0 ++ u16be (3 + 2 * vals.length) ++ [0 % 256] ++
          ([0x03, 2 * vals.length] ++ (vals.map (fun v => u16be (v % 65536))).flatten)) :=
  c1_fc3_normal_response testClock 0 0 0 [0x03, 0, 1, 0, 2] (by decide) (by decide)
    (by decide) (by decide) (by decide)

lemma pduResponse_some_of_processFrame (c : Clock) (tid pid uid : Nat) (pdu resp : List Nat)
    (h : processFrame c tid pid uid pdu = some resp) :
    ∃ p, pduResponse c pdu = some p ∧ resp = mbapFrame tid pid uid p := by
  rw [processFrame_eq_map] at h
  cases hpd : pduResponse c pdu with
  | none => rw [hpd] at h; cases h
  | some p =>
      rw [hpd] at h
      injection h with h
      exact ⟨p, rfl, h.symm⟩

lemma mbapFrame_drop7 (tid pid uid : Nat) (p : List Nat) :
    (mbapFrame tid pid uid p).drop 7 = p := by
  unfold mbapFrame u16be
  simp

/-- C3: whenever the server produces a response frame, its transaction-id,
protocol-id and unit-id bytes are exactly the request header's values,
re-encoded as on the wire. -/
theorem c3_header_echo (c : Clock) (tid pid uid : Nat) (pdu resp : List Nat)
    (huid : uid < 256) (h : processFrame c tid pid uid pdu = some resp) :
    resp.take 2 = u16be tid ∧ (resp.drop 2).take 2 = u16be pid ∧ resp.getD 6 0 = uid := by
  obtain ⟨p, _, rfl⟩ := pduResponse_some_of_processFrame c tid pid uid pdu resp h
  unfold mbapFrame u16be
  simp [Nat.mod_eq_of_lt huid]

/-- Witness for C3: an unsupported-function request with tid 1, pid 2,
uid 5. -/
theorem c3_header_echo_witness :
    ([0, 1, 0, 2, 0, 3, 5, 132, 1] : List Nat).take 2 = u16be 1 ∧
      (([0, 1, 0, 2, 0, 3, 5, 132, 1] : List Nat).drop 2).take 2 = u16be 2 ∧
      ([0, 1, 0, 2, 0, 3, 5, 132, 1] : List Nat).getD 6 0 = 5 :=
  c3_header_echo testClock 1 2 5 [4] [0, 1, 0, 2, 0, 3, 5, 132, 1] (by decide) (by decide)

lemma pySlice_length_le {α : Type} (xs : List α) (a b : Int) :
    (pySlice xs a b).length ≤ xs.length := by
  unfold pySlice
  simp [List.length_take]

lemma read_clock_registers_vals_length_le (c : Clock) (start count : Int) (vals : List Nat)
    (h : read_clock_registers c start count = some vals) : vals.length ≤ 6 := by
  unfold read_clock_registers at h
  dsimp only at h
  split at h
  · cases h
  · injection h with h
    rw [← h]
    have := pySlice_length_le (registersOf c) start (start + count)
    rw [registersOf_length] at this
    exact this

lemma pduResponse_length_le (c : Clock) (pdu p : List Nat)
    (h : pduResponse c pdu = some p) : p.length ≤ 14 := by
  unfold pduResponse at h
  dsimp only at h
  split at h
  · cases h
  · split at h
    · split at h
      · injection h with h; rw [← h]; simp
      · split at h
        · injection h with h; rw [← h]; simp
        · split at h
          · injection h with h; rw [← h]; simp
          · rename_i vals hread
            injection h with h
            rw [← h]
            have h6 := read_clock_registers_vals_length_le c _ _ vals hread
            have hf := flatten_map_u16be_length vals
            rw [List.length_append, hf]
            simp only [List.length_cons, List.length_nil]
            omega
    · injection h with h; rw [← h]; simp

lemma u16of_split (n : Nat) (h : n < 65536) :
    u16of (n / 256 % 256) (n % 256) = n := by
  unfold u16of
  omega

/-- C4: every frame the server emits carries an MBAP length field equal to
1 plus the length of the PDU that follows the 7-byte header. -/
theorem c4_length_field (c : Clock) (tid pid uid : Nat) (pdu resp : List Nat)
    (h : processFrame c tid pid uid pdu = some resp) :
    u16of (resp.getD 4 0) (resp.getD 5 0) = 1 + (resp.drop 7).length := by
  obtain ⟨p, hp, rfl⟩ := pduResponse_some_of_processFrame c tid pid uid pdu resp h
  rw [mbapFrame_drop7]
  have hle := pduResponse_length_le c pdu p hp
  have hget4 : (mbapFrame tid pid uid p).getD 4 0 = (1 + p.length) / 256 % 256 := by
    unfold mbapFrame u16be
    simp
  have hget5 : (mbapFrame tid pid uid p).getD 5 0 = (1 + p.length) % 256 := by
    unfold mbapFrame u16be
    simp
  rw [hget4, hget5, u16of_split (1 + p.length) (by omega)]

/-- Witness for C4: the exception frame for an unsupported function code. -/
theorem c4_length_field_witness :
    u16of (([0, 0, 0, 0, 0, 3, 0, 132, 1] : List Nat).getD 4 0)
        (([0, 0, 0, 0, 0, 3, 0, 132, 1] : List Nat).getD 5 0) =
      1 + (([0, 0, 0, 0, 0, 3, 0, 132, 1] : List Nat).drop 7).length :=
  c4_length_field testClock 0 0 0 [4] [0, 0, 0, 0, 0, 3, 0, 132, 1] (by decide)

/-- C9: the server never inspects the MBAP protocol id.  Two inbound frames
identical except for the two protocol-id bytes produce identical behaviour
(both terminate, or both answer, consuming the same bytes), and the two
response frames differ only in the echoed protocol-id field. -/
theorem c9_protocol_id_not_inspected (c : Clock) (t1 t2 p1 p2 q1 q2 l1 l2 u : Nat)
    (rest : List Nat) :
    handleOnce c (t1 :: t2 :: q1 :: q2 :: l1 :: l2 :: u :: rest) =
      (handleOnce c (t1 :: t2 :: p1 :: p2 :: l1 :: l2 :: u :: rest)).map
        (fun rs => (rs.1.take 2 ++ u16be (u16of q1 q2) ++ rs.1.drop 4, rs.2)) := by
  have h7 : ∀ a b : Nat, recv_exact (t1 :: t2 :: a :: b :: l1 :: l2 :: u :: rest) 7 =
      some ([t1, t2, a, b, l1, l2, u], rest) := by
    intro a b
    unfold recv_exact
    rw [if_neg (by norm_num), if_pos (by simp)]
    simp
  have hparse : ∀ a b : Nat, parse_mbap_header [t1, t2, a, b, l1, l2, u] =
      (u16of t1 t2, u16of a b, u16of l1 l2, u % 256) := fun a b => rfl
  unfold handleOnce
  rw [h7, h7]
  dsimp only
  rw [hparse, hparse]
  dsimp only
  cases hb : recv_exact rest ((u16of l1 l2 : Int) - 1) with
  | none => rfl
  | some pr =>
      obtain ⟨pdu, rest2⟩ := pr
      dsimp only
      rw [processFrame_eq_map c (u16of t1 t2) (u16of q1 q2) (u % 256) pdu,
        processFrame_eq_map c (u16of t1 t2) (u16of p1 p2) (u % 256) pdu]
      cases hpd : pduResponse c pdu with
      | none => rfl
      | some p =>
          dsimp only [Option.map]
          unfold mbapFrame u16be
          simp

/-- C10: the start address is decoded from the wire as an unsigned 16-bit
integer, so it is never negative; every IllegalDataAddress (0x02) exception a
client receives comes from `start + quantity > 6`. -/
theorem c10_illegal_address_cause (c : Clock) (tid pid uid : Nat) (pdu resp : List Nat)
    (h : processFrame c tid pid uid pdu = some resp)
    (hex : resp.drop 7 = [0x83, 0x02]) :
    6 < u16of (pdu.getD 1 0) (pdu.getD 2 0) + u16of (pdu.getD 3 0) (pdu.getD 4 0) := by
  obtain ⟨p, hp, rfl⟩ := pduResponse_some_of_processFrame c tid pid uid pdu resp h
  rw [mbapFrame_drop7] at hex
  subst hex
  unfold pduResponse at hp
  dsimp only at hp
  split at hp
  · cases hp
  · split at hp
    · split at hp
      · injection hp with hp
        simp [ILLEGAL_DATA_VALUE] at hp
      · split at hp
        · injection hp with hp
          simp [ILLEGAL_DATA_VALUE] at hp
        · split at hp
          · rename_i hread
            have := (read_clock_registers_none_iff c _ _).mp hread
            rcases this with hneg | hgt
            · exact absurd hneg (by omega)
            · exact_mod_cast hgt
          · injection hp with hp
            simp at hp
    · injection hp with hp
      simp [ILLEGAL_FUNCTION] at hp

/-- Witness for C10: start = 4, quantity = 5 draws the IllegalDataAddress
exception and indeed 4 + 5 > 6. -/
theorem c10_illegal_address_cause_witness :
    6 < u16of (([3, 0, 4, 0, 5] : List Nat).getD 1 0) (([3, 0, 4, 0, 5] : List Nat).getD 2 0) +
        u16of (([3, 0, 4, 0, 5] : List Nat).getD 3 0) (([3, 0, 4, 0, 5] : List Nat).getD 4 0) :=
  c10_illegal_address_cause testClock 0 0 0 [3, 0, 4, 0, 5] [0, 0, 0, 0, 0, 3, 0, 0x83, 0x02]
    (by decide) (by decide)
